import Mathlib

/-!
# Lifecycle of the API server command (`cmd/api/server.go`)

A shallow embedding of `setup`, `run` and `StartCmd` as sequential processes
that thread a `World` (the runtime registry, the wall clock and the pending
deferred calls of the current function) and produce the list of observable
events in program order.  Calls into imported packages are events whose
results are supplied by an `Env`.
-/

namespace GoAdmin

/-! ## Data model -/

/-- A Go `error`, identified by the text of `err.Error()`. -/
abbrev Err := String

/-- A constructed cache, queue or locker adapter (a non-nil interface value). -/
structure Adapter where
  id : Nat
deriving DecidableEq, Repr

/-- A `*gin.Engine`. -/
structure Engine where
  id : Nat
deriving DecidableEq, Repr

/-- One entry of the route table returned by `sdk.Runtime.GetRouter()`. -/
structure Router where
  httpMethod : String
  relativePath : String
  handler : String
deriving DecidableEq, Repr

/-- The topic identifiers of package `global` used by this file.  The
constructors stand for the identifiers; their string values are declared
outside this file. -/
inductive Topic where
  | LoginLog
  | OperateLog
  | ApiCheck
deriving DecidableEq, Repr

/-- The consumer functions of package `models` registered by `setup`. -/
inductive Consumer where
  | SaveLoginLog
  | SaveOperaLog
  | SaveSysApi
deriving DecidableEq, Repr

/-- A message as returned by `sdk.Runtime.GetStreamMessage`. -/
structure Message where
  id : Nat
deriving DecidableEq, Repr

/-- The payload `map[string]interface{}` built by `run`: keys with the route
table stored under them. -/
abbrev Payload := List (String × List Router)

/-- The fields of `sdk.Runtime` this file reads or writes.  A nil slot is
`none`. -/
structure Runtime where
  cacheAdapter : Option Adapter
  queueAdapter : Option Adapter
  lockerAdapter : Option Adapter
  engine : Option Engine
  routers : List Router
deriving DecidableEq, Repr

/-- The `http.Server` literal built by `run`. -/
structure Server where
  addr : String
  handler : Option Engine
deriving DecidableEq, Repr

/-- Bodies of the goroutines started with a `go` statement. -/
inductive Goroutine where
  | configWatch
  | queueRun (name : String)
  | adapterRun (a : Adapter)
  | jobs
  | listenAndServe (srv : Server)
  | listenAndServeTLS (srv : Server) (pem key : String)
deriving DecidableEq, Repr

/-- Calls registered with `defer`. -/
inductive Deferred where
  | goAdapterRun (a : Adapter)
  | configStop
  | cancel
deriving DecidableEq, Repr

/-- Observable steps, in program order. -/
inductive Event where
  | extendConfig
  | configSetup (path : String)
  | go (g : Goroutine)
  | setLogger
  | databaseSetup
  | cacheSetup
  | setCacheAdapter (a : Adapter)
  | captchaSetStore (a : Adapter) (expiration : Nat)
  | queueEmpty
  | queueSetup
  | setQueueAdapter (a : Adapter)
  | lockerEmpty
  | lockerSetup
  | setLockerAdapter (a : Adapter)
  | getMemoryQueue (name : String)
  | register (queue : String) (topic : Topic) (f : Consumer)
  | ginSetReleaseMode
  | getEngine
  | ginNew
  | appRouter (index : Nat)
  | getRouter
  | getStreamMessage (name : String) (topic : Topic) (mp : Payload)
  | append (queue : String) (m : Message)
  | withTimeout (now timeout : Nat)
  | signalNotify
  | interrupt (now : Nat)
  | shutdown (srv : Server) (deadline now : Nat)
  | configStop
  | cancel
  | stdout (s : String)
  | logPrint (s : String)
  | logFatal (s : String)
deriving DecidableEq, Repr

/-- The state threaded through a process: the registry, the clock in
nanoseconds, and the deferred calls of the function being executed (most
recent first). -/
structure World where
  rt : Runtime
  clock : Nat
  defers : List Deferred
deriving DecidableEq, Repr

/-- Outcome of a process: a normal return with a value, or process exit
(`os.Exit`) with a status code.  Both carry the events produced and the
final world. -/
inductive Res (α : Type) where
  | ret (a : α) (evs : List Event) (w : World)
  | exit (code : Nat) (evs : List Event) (w : World)

/-- Events produced. -/
def Res.events {α : Type} : Res α → List Event
  | .ret _ evs _ => evs
  | .exit _ evs _ => evs

/-- Final world. -/
def Res.world {α : Type} : Res α → World
  | .ret _ _ w => w
  | .exit _ _ w => w

/-- The returned value, when the process returned. -/
def Res.value {α : Type} : Res α → Option α
  | .ret a _ _ => some a
  | .exit _ _ _ => none

/-- The exit status, when the process was terminated. -/
def Res.exitCode {α : Type} : Res α → Option Nat
  | .ret _ _ _ => none
  | .exit c _ _ => some c

/-- A sequential process. -/
def Proc (α : Type) : Type := World → Res α

/-- Return without effect. -/
def Proc.pure {α : Type} (a : α) : Proc α := fun w => .ret a [] w

/-- Sequencing: a process that exited runs nothing further. -/
def Proc.bind {α β : Type} (m : Proc α) (f : α → Proc β) : Proc β := fun w =>
  match m w with
  | .exit c evs w1 => .exit c evs w1
  | .ret a evs w1 =>
    match f a w1 with
    | .ret b evs2 w2 => .ret b (evs ++ evs2) w2
    | .exit c evs2 w2 => .exit c (evs ++ evs2) w2

instance : Monad Proc where
  pure := Proc.pure
  bind := Proc.bind

/-- Record one event. -/
def emit (e : Event) : Proc Unit := fun w => .ret () [e] w

/-- Read the registry. -/
def getRuntime : Proc Runtime := fun w => .ret w.rt [] w

/-- Update the registry. -/
def modifyRuntime (f : Runtime → Runtime) : Proc Unit := fun w =>
  .ret () [] { w with rt := f w.rt }

/-- Read the clock. -/
def now : Proc Nat := fun w => .ret w.clock [] w

/-- Let time pass.  Time passes only while the main goroutine is blocked; the
other steps are taken to be instantaneous. -/
def sleep (d : Nat) : Proc Unit := fun w => .ret () [] { w with clock := w.clock + d }

/-- The `os.Exit(code)` call: the process ends at once, deferred calls are
not run. -/
def osExit {α : Type} (code : Nat) : Proc α := fun w => .exit code [] w

/-- The `log.Fatal` family: print the message, then `os.Exit(1)`. -/
def logFatal {α : Type} (msg : String) : Proc α := do
  emit (.logFatal msg)
  osExit 1

/-- The `log.Print` family. -/
def logPrint (msg : String) : Proc Unit := emit (.logPrint msg)

/-- The `defer` statement: push a call on the stack of the current function. -/
def defer (d : Deferred) : Proc Unit := fun w =>
  .ret () [] { w with defers := d :: w.defers }

/-- Execute one deferred call. -/
def runDeferred : Deferred → Proc Unit
  | .goAdapterRun a => emit (.go (.adapterRun a))
  | .configStop => emit .configStop
  | .cancel => emit .cancel

/-- Execute deferred calls, the head of the list first. -/
def runDefers : List Deferred → Proc Unit
  | [] => pure ()
  | d :: ds => do
    runDeferred d
    runDefers ds

/-- A Go function call: the body runs with a fresh stack of deferred calls;
when it returns they run in last-in-first-out order before control goes back
to the caller.  When the process exits inside the body they never run. -/
def call {α : Type} (body : Proc α) : Proc α := fun w =>
  match body { w with defers := [] } with
  | .exit c evs w1 => .exit c evs w1
  | .ret a evs w1 =>
    match runDefers w1.defers { w1 with defers := [] } with
    | .ret _ evs2 w2 => .ret a (evs ++ evs2) { w2 with defers := w.defers }
    | .exit c evs2 w2 => .exit c (evs ++ evs2) w2

/-! ## Environment -/

/-- Go duration of one second, in nanoseconds. -/
def Second : Nat := 1000000000

/-- Command-line flags, loaded configuration, and the results of the calls
into imported packages.  `Setup` of an adapter factory yields either an
adapter or an error. -/
structure Env where
  configYml : String
  apiCheck : Bool
  applicationMode : String
  applicationHost : String
  applicationPort : Int
  sslEnable : Bool
  sslPem : String
  sslKeyStr : String
  modeProd : String
  cacheSetup : Except Err Adapter
  queueEmpty : Bool
  queueSetup : Except Err Adapter
  lockerEmpty : Bool
  lockerSetup : Except Err Adapter
  ginNew : Engine
  AppRouters : List (Runtime → Runtime)
  getStreamMessage : String → Topic → Payload → Except Err Message
  append : String → Message → Option Err
  listen : Option Err
  serving : Nat
  shutdown : Server → Nat → Nat → Option Err
  red : String → String
  green : String → String
  logoContent : String
  version : String
  locaHonst : String
  currentTimeStr : Nat → String

/-! ## Calls into imported packages -/

/-- The call `config.CacheConfig.Setup()`. -/
def cacheConfigSetup (env : Env) : Proc (Except Err Adapter) := do
  emit .cacheSetup
  pure env.cacheSetup

/-- The call `config.QueueConfig.Empty()`. -/
def queueConfigEmpty (env : Env) : Proc Bool := do
  emit .queueEmpty
  pure env.queueEmpty

/-- The call `config.QueueConfig.Setup()`. -/
def queueConfigSetup (env : Env) : Proc (Except Err Adapter) := do
  emit .queueSetup
  pure env.queueSetup

/-- The call `config.LockerConfig.Empty()`. -/
def lockerConfigEmpty (env : Env) : Proc Bool := do
  emit .lockerEmpty
  pure env.lockerEmpty

/-- The call `config.LockerConfig.Setup()`. -/
def lockerConfigSetup (env : Env) : Proc (Except Err Adapter) := do
  emit .lockerSetup
  pure env.lockerSetup

/-- The call `sdk.Runtime.SetCacheAdapter(a)`. -/
def setCacheAdapter (a : Adapter) : Proc Unit := do
  emit (.setCacheAdapter a)
  modifyRuntime fun rt => { rt with cacheAdapter := some a }

/-- The call `sdk.Runtime.SetQueueAdapter(a)`. -/
def setQueueAdapter (a : Adapter) : Proc Unit := do
  emit (.setQueueAdapter a)
  modifyRuntime fun rt => { rt with queueAdapter := some a }

/-- The call `sdk.Runtime.SetLockerAdapter(a)`. -/
def setLockerAdapter (a : Adapter) : Proc Unit := do
  emit (.setLockerAdapter a)
  modifyRuntime fun rt => { rt with lockerAdapter := some a }

/-- The call `sdk.Runtime.GetMemoryQueue(name)`; the queue is referred to by
its name. -/
def getMemoryQueue (name : String) : Proc String := do
  emit (.getMemoryQueue name)
  pure name

/-- The call `queue.Register(topic, f)`. -/
def queueRegister (queue : String) (topic : Topic) (f : Consumer) : Proc Unit :=
  emit (.register queue topic f)

/-- The call `sdk.Runtime.GetEngine()`. -/
def getEngine : Proc (Option Engine) := do
  emit .getEngine
  let rt ← getRuntime
  pure rt.engine

/-- The call `gin.New()`. -/
def ginNew (env : Env) : Proc (Option Engine) := do
  emit .ginNew
  pure (some env.ginNew)

/-- The call `sdk.Runtime.GetRouter()`. -/
def getRouter : Proc (List Router) := do
  emit .getRouter
  let rt ← getRuntime
  pure rt.routers

/-- The call `sdk.Runtime.GetStreamMessage(name, topic, mp)`. -/
def getStreamMessage (env : Env) (name : String) (topic : Topic) (mp : Payload) :
    Proc (Except Err Message) := do
  emit (.getStreamMessage name topic mp)
  pure (env.getStreamMessage name topic mp)

/-- The call `q.Append(message)`. -/
def queueAppend (env : Env) (q : String) (message : Message) : Proc (Option Err) := do
  emit (.append q message)
  pure (env.append q message)

/-- The call `context.WithTimeout(context.Background(), d)`: the deadline of
the new context is the time of the call plus `d`. -/
def contextWithTimeout (d : Nat) : Proc Nat := do
  let t ← now
  emit (.withTimeout t d)
  pure (t + d)

/-- The call `srv.Shutdown(ctx)`, with `ctx` given by its deadline. -/
def srvShutdown (env : Env) (srv : Server) (ctx : Nat) : Proc (Option Err) := do
  let t ← now
  emit (.shutdown srv ctx t)
  pure (env.shutdown srv ctx t)

/-- The receive `<-quit`.  The main goroutine blocks while the listener
goroutine serves.  When the listener returns an error other than
`http.ErrServerClosed` that goroutine calls `log.Fatal("listen: ", err)` and
the process ends; otherwise the interrupt arrives after `env.serving`
nanoseconds. -/
def awaitInterrupt (env : Env) : Proc Unit := do
  match env.listen with
  | some err => logFatal ("listen: " ++ err)
  | none =>
    sleep env.serving
    let t ← now
    emit (.interrupt t)

/-! ## The functions of `server.go` -/

/-- The function `tip`. -/
def tip (env : Env) : Proc Unit := do
  let usageStr := "欢迎使用 " ++ env.green ("go-admin " ++ env.version) ++ " 可以使用 "
    ++ env.red "-h" ++ " 查看命令"
  emit (.stdout (usageStr ++ " \n\n"))

/-- The function `setup`. -/
def setup (env : Env) : Proc Unit := call do
  emit .extendConfig
  emit (.configSetup env.configYml)
  emit (.go .configWatch)
  emit .setLogger
  emit .databaseSetup
  let cacheAdapter ← match ← cacheConfigSetup env with
    | .error err => logFatal ("cache setup error, " ++ err ++ "\n")
    | .ok a => pure a
  setCacheAdapter cacheAdapter
  emit (.captchaSetStore cacheAdapter 600)
  if !(← queueConfigEmpty env) then
    let queueAdapter ← match ← queueConfigSetup env with
      | .error err => logFatal ("queue setup error, " ++ err ++ "\n")
      | .ok a => pure a
    setQueueAdapter queueAdapter
    defer (.goAdapterRun queueAdapter)
  if !(← lockerConfigEmpty env) then
    let lockerAdapter ← match ← lockerConfigSetup env with
      | .error err => logFatal ("locker setup error, " ++ err ++ "\n")
      | .ok a => pure a
    setLockerAdapter lockerAdapter
  let usageStr := "starting api server..."
  logPrint (usageStr ++ "\n")
  let queue ← getMemoryQueue ""
  queueRegister queue .LoginLog .SaveLoginLog
  queueRegister queue .OperateLog .SaveOperaLog
  queueRegister queue .ApiCheck .SaveSysApi
  emit (.go (.queueRun queue))

/-- The loop `for _, f := range AppRouters { f() }`.  A route-registration
function takes no argument and returns nothing; it acts on the registry. -/
def rangeAppRouters : Nat → List (Runtime → Runtime) → Proc Unit
  | _, [] => pure ()
  | i, f :: fs => do
    emit (.appRouter i)
    modifyRuntime f
    rangeAppRouters (i + 1) fs

set_option linter.unusedVariables false in
/-- The function `run`. -/
def run (env : Env) : Proc (Option Err) := call do
  defer .configStop
  if env.applicationMode == env.modeProd then
    emit .ginSetReleaseMode
  let engine ← getEngine
  let engine ← if engine.isNone then ginNew env else pure engine
  rangeAppRouters 0 env.AppRouters
  let srv : Server :=
    { addr := env.applicationHost ++ ":" ++ toString env.applicationPort
      handler := ← getEngine }
  emit (.go .jobs)
  if env.apiCheck then
    let routers ← getRouter
    let q ← getMemoryQueue ""
    let mp : Payload := [("List", routers)]
    match ← getStreamMessage env "" .ApiCheck mp with
    | .error err => logPrint ("GetStreamMessage error, " ++ err ++ " \n")
    | .ok message =>
      match ← queueAppend env q message with
      | some err => logPrint ("Append message error, " ++ err ++ " \n")
      | none => pure ()
  let ctx ← contextWithTimeout (5 * Second)
  defer .cancel
  if env.sslEnable then
    emit (.go (.listenAndServeTLS srv env.sslPem env.sslKeyStr))
  else
    emit (.go (.listenAndServe srv))
  emit (.stdout (env.red env.logoContent ++ "\n"))
  tip env
  emit (.stdout (env.green "Server run at:" ++ "\n"))
  emit (.stdout ("-  Local:   http://localhost:" ++ toString env.applicationPort ++ "/ \r\n"))
  emit (.stdout ("-  Network: http://" ++ env.locaHonst ++ ":"
    ++ toString env.applicationPort ++ "/ \r\n"))
  emit (.stdout (env.green "Swagger run at:" ++ "\n"))
  emit (.stdout ("-  Local:   http://localhost:" ++ toString env.applicationPort
    ++ "/swagger/index.html \r\n"))
  emit (.stdout ("-  Network: http://" ++ env.locaHonst ++ ":"
    ++ toString env.applicationPort ++ "/swagger/index.html \r\n"))
  emit (.stdout (env.currentTimeStr (← now) ++ " Enter Control + C Shutdown Server \r\n"))
  emit .signalNotify
  awaitInterrupt env
  emit (.stdout (env.currentTimeStr (← now) ++ " Shutdown Server ... \r\n"))
  match ← srvShutdown env srv ctx with
  | some err => logFatal ("Server Shutdown:" ++ err)
  | none => pure ()
  logPrint "Server exiting\n"
  return none

/-- The command `StartCmd`: `PreRun` calls `setup()`, then `RunE` returns
`run()`. -/
def StartCmd (env : Env) : Proc (Option Err) := do
  setup env
  run env

/-! ## Classification of events -/

/-- A consumer registration. -/
def Event.isRegister : Event → Bool
  | .register _ _ _ => true
  | _ => false

/-- The start of a queue run loop: the in-process queue or a queue adapter. -/
def Event.isRunStart : Event → Bool
  | .go (.queueRun _) => true
  | .go (.adapterRun _) => true
  | _ => false

/-- The start of an adapter run loop. -/
def Event.isAdapterRun : Event → Bool
  | .go (.adapterRun _) => true
  | _ => false

/-- A registration or the start of a run loop. -/
def Event.isQueueStep : Event → Bool := fun e => e.isRegister || e.isRunStart

/-- The start of the HTTP listener goroutine. -/
def Event.isListen : Event → Bool
  | .go (.listenAndServe _) => true
  | .go (.listenAndServeTLS _ _ _) => true
  | _ => false

/-- An `Append` on a queue. -/
def Event.isAppend : Event → Bool
  | .append _ _ => true
  | _ => false

/-- A `log.Fatal` message. -/
def Event.isFatal : Event → Bool
  | .logFatal _ => true
  | _ => false

/-- A step of the kinds the optional API self-check of `run` is made of. -/
def Event.isSelfCheck : Event → Bool
  | .getRouter => true
  | .getMemoryQueue _ => true
  | .getStreamMessage _ _ _ => true
  | .append _ _ => true
  | .logPrint _ => true
  | _ => false

/-- A `GetStreamMessage` call. -/
def Event.isGetStreamMessage : Event → Bool
  | .getStreamMessage _ _ _ => true
  | _ => false

/-- The invocation of a route-registration function. -/
def Event.isAppRouter : Event → Bool
  | .appRouter _ => true
  | _ => false

/-- The `captcha.SetStore` call. -/
def Event.isCaptchaStore : Event → Bool
  | .captchaSetStore _ _ => true
  | _ => false

/-- A startup step that follows adapter construction: consumer registration,
the start of a run loop, or the start of the HTTP listener. -/
def Event.isLaterStep : Event → Bool := fun e =>
  e.isRegister || e.isRunStart || e.isListen

/-- The server an event carries: the one the listener goroutine serves, or the
one `Shutdown` is called on. -/
def Event.server? : Event → Option Server
  | .go (.listenAndServe srv) => some srv
  | .go (.listenAndServeTLS srv _ _) => some srv
  | .shutdown srv _ _ => some srv
  | _ => none

/-- The deadline of the context passed to `srv.Shutdown`. -/
def Event.shutdownDeadline? : Event → Option Nat
  | .shutdown _ deadline _ => some deadline
  | _ => none

/-- The time at which the interrupt is received. -/
def Event.interruptTime? : Event → Option Nat
  | .interrupt t => some t
  | _ => none

/-- A clean-up step registered by `run` with `defer`. -/
def Event.isCleanup : Event → Bool
  | .configStop => true
  | .cancel => true
  | _ => false

/-- A call that constructs or installs the queue adapter. -/
def Event.isQueueConstruction : Event → Bool
  | .queueSetup => true
  | .setQueueAdapter _ => true
  | _ => false

/-- A call that constructs or installs the locker adapter. -/
def Event.isLockerConstruction : Event → Bool
  | .lockerSetup => true
  | .setLockerAdapter _ => true
  | _ => false

/-- The three consumer registrations of `setup`, in program order. -/
def builtinRegistrations : List Event :=
  [.register "" .LoginLog .SaveLoginLog, .register "" .OperateLog .SaveOperaLog,
   .register "" .ApiCheck .SaveSysApi]

/-- A `Shutdown` call. -/
def Event.isShutdown : Event → Bool
  | .shutdown _ _ _ => true
  | _ => false

/-- The environment with the results of the two self-check calls replaced. -/
def Env.withSelfCheck (env : Env)
    (gsm : String → Topic → Payload → Except Err Message)
    (app : String → Message → Option Err) : Env :=
  { env with getStreamMessage := gsm, append := app }

/-! ## Closed form of `run` -/

/-- The events of the loop over `AppRouters`. -/
def appRouterEvents : Nat → List (Runtime → Runtime) → List Event
  | _, [] => []
  | i, _ :: fs => .appRouter i :: appRouterEvents (i + 1) fs

/-- The registry after every route-registration function has run, in order. -/
def applyRouters (fs : List (Runtime → Runtime)) (rt : Runtime) : Runtime :=
  fs.foldl (fun r f => f r) rt

/-- The events of the API self-check block, given the route table read. -/
def selfCheckEvents (env : Env) (routers : List Router) : List Event :=
  if env.apiCheck then
    [.getRouter, .getMemoryQueue "", .getStreamMessage "" .ApiCheck [("List", routers)]] ++
    match env.getStreamMessage "" .ApiCheck [("List", routers)] with
    | .error err => [.logPrint ("GetStreamMessage error, " ++ err ++ " \n")]
    | .ok m =>
      .append "" m ::
        match env.append "" m with
        | some err => [.logPrint ("Append message error, " ++ err ++ " \n")]
        | none => []
  else []

/-- The server value `run` builds when started in world `w`. -/
def srvOf (env : Env) (w : World) : Server :=
  { addr := env.applicationHost ++ ":" ++ toString env.applicationPort
    handler := (applyRouters env.AppRouters w.rt).engine }

/-- The start of the listener goroutine. -/
def listenEvent (env : Env) (w : World) : Event :=
  if env.sslEnable then .go (.listenAndServeTLS (srvOf env w) env.sslPem env.sslKeyStr)
  else .go (.listenAndServe (srvOf env w))

/-- What `run` prints between starting the listener and waiting for the
interrupt. -/
def bannerEvents (env : Env) (w : World) : List Event :=
  [ .stdout (env.red env.logoContent ++ "\n"),
    .stdout ("欢迎使用 " ++ env.green ("go-admin " ++ env.version) ++ " 可以使用 "
      ++ env.red "-h" ++ " 查看命令" ++ " \n\n"),
    .stdout (env.green "Server run at:" ++ "\n"),
    .stdout ("-  Local:   http://localhost:" ++ toString env.applicationPort ++ "/ \r\n"),
    .stdout ("-  Network: http://" ++ env.locaHonst ++ ":"
      ++ toString env.applicationPort ++ "/ \r\n"),
    .stdout (env.green "Swagger run at:" ++ "\n"),
    .stdout ("-  Local:   http://localhost:" ++ toString env.applicationPort
      ++ "/swagger/index.html \r\n"),
    .stdout ("-  Network: http://" ++ env.locaHonst ++ ":"
      ++ toString env.applicationPort ++ "/swagger/index.html \r\n"),
    .stdout (env.currentTimeStr w.clock ++ " Enter Control + C Shutdown Server \r\n"),
    .signalNotify ]

/-- The events of `run` before the API self-check. -/
def beforeSelfCheck (env : Env) (w : World) : List Event :=
  (if env.applicationMode == env.modeProd then [.ginSetReleaseMode] else [])
  ++ [.getEngine] ++ (if w.rt.engine.isNone then [.ginNew] else [])
  ++ appRouterEvents 0 env.AppRouters ++ [.getEngine, .go .jobs]

/-- The events of `run` from the creation of the shutdown context up to the
wait for the interrupt. -/
def afterSelfCheck (env : Env) (w : World) : List Event :=
  [.withTimeout w.clock (5 * Second), listenEvent env w] ++ bannerEvents env w

/-- The events of `run` up to the wait for the interrupt. -/
def servingEvents (env : Env) (w : World) : List Event :=
  beforeSelfCheck env w
  ++ selfCheckEvents env (applyRouters env.AppRouters w.rt).routers
  ++ afterSelfCheck env w

/-- The events of `run` from the wait for the interrupt on. -/
def drainEvents (env : Env) (w : World) : List Event :=
  match env.listen with
  | some err => [.logFatal ("listen: " ++ err)]
  | none =>
    let t := w.clock + env.serving
    [.interrupt t, .stdout (env.currentTimeStr t ++ " Shutdown Server ... \r\n"),
     .shutdown (srvOf env w) (w.clock + 5 * Second) t] ++
    match env.shutdown (srvOf env w) (w.clock + 5 * Second) t with
    | some err => [.logFatal ("Server Shutdown:" ++ err)]
    | none => [.logPrint "Server exiting\n", .cancel, .configStop]

/-- The result of `run` written out: all events and the final world for each
outcome of the listener and of `Shutdown`. -/
def runClosedForm (env : Env) (w : World) : Res (Option Err) :=
  let rt1 := applyRouters env.AppRouters w.rt
  let evs := servingEvents env w ++ drainEvents env w
  match env.listen with
  | some _ => .exit 1 evs { rt := rt1, clock := w.clock, defers := [.cancel, .configStop] }
  | none =>
    let t := w.clock + env.serving
    match env.shutdown (srvOf env w) (w.clock + 5 * Second) t with
    | some _ => .exit 1 evs { rt := rt1, clock := t, defers := [.cancel, .configStop] }
    | none => .ret none evs { rt := rt1, clock := t, defers := w.defers }

/-! ## The in-process event queue

`server.go` only calls the queue (`GetMemoryQueue`, `Register`, `Append`,
`Run`); its implementation lives in the imported package `go-admin-core`.
The definitions of this section follow the description of the queue in the
specification. -/

/-- Modelled from the spec: the message of the in-process event queue, whose
implementation is in the imported package `go-admin-core`; a topic, a payload
and the time it was produced. -/
structure QMessage where
  topic : String
  payload : String
  producedAt : Nat
deriving DecidableEq, Repr

/-- Modelled from the spec: a handler of the in-process event queue, a named
function from a message to success (`none`) or an error. -/
structure Handler where
  name : String
  fn : QMessage → Option Err

/-- Modelled from the spec: what the dispatch loop of the in-process event
queue does: it invokes a handler on a message, and it reports a handler error. -/
inductive QEvent where
  | invoked (handler : String) (m : QMessage)
  | handlerError (handler : String) (m : QMessage) (err : Err)
deriving DecidableEq, Repr

/-- An invocation of a handler. -/
def QEvent.isInvoked : QEvent → Bool
  | .invoked _ _ => true
  | _ => false

/-- Modelled from the spec: the state of the dispatch loop of the in-process
event queue: blocked waiting for the next message, or terminated. -/
inductive LoopState where
  | waiting
  | terminated
deriving DecidableEq, Repr

/-- Modelled from the spec: one instance of the in-process event queue
(`NamedQueue`): a registration table from topic to the ordered list of its
handlers, a bounded buffer of pending messages, and whether it was closed. -/
structure NamedQueue where
  name : String
  table : List (String × List Handler)
  pending : List QMessage
  capacity : Nat
  closed : Bool

/-- Modelled from the spec: a named queue as created on first lookup, with no
handler and no pending message. -/
def NamedQueue.new (name : String) (capacity : Nat) : NamedQueue :=
  { name := name, table := [], pending := [], capacity := capacity, closed := false }

/-- Modelled from the spec: the handlers registered to a topic of the queue,
in registration order. -/
def NamedQueue.handlers (q : NamedQueue) (topic : String) : List Handler :=
  (q.table.lookup topic).getD []

/-- Modelled from the spec: `Register(topic, handler)` of the queue appends
the handler to the handler list of the topic. -/
def NamedQueue.Register (q : NamedQueue) (topic : String) (h : Handler) : NamedQueue :=
  { q with
    table := (topic, q.handlers topic ++ [h]) :: q.table.filter (fun p => p.1 != topic) }

/-- Modelled from the spec: a sequence of `Register` calls on the queue, made
in the order of the list. -/
def NamedQueue.RegisterAll (q : NamedQueue) (rs : List (String × Handler)) : NamedQueue :=
  rs.foldl (fun acc r => acc.Register r.1 r.2) q

/-- Modelled from the spec: `Append(message)` of the queue enqueues the
message, or reports an error when the buffer is full. -/
def NamedQueue.Append (q : NamedQueue) (m : QMessage) : NamedQueue × Option Err :=
  if q.pending.length < q.capacity then
    ({ q with pending := q.pending ++ [m] }, none)
  else
    (q, some "queue saturated")

/-- Modelled from the spec: the dispatch of one message of the queue: every
handler is invoked in order; a handler error is reported and the next handler
runs. -/
def dispatch : List Handler → QMessage → List QEvent
  | [], _ => []
  | h :: hs, m =>
    match h.fn m with
    | none => .invoked h.name m :: dispatch hs m
    | some err => .invoked h.name m :: .handlerError h.name m err :: dispatch hs m

/-- Modelled from the spec: the dispatch loop of the queue over the pending
messages, first in first out. -/
def NamedQueue.dispatchAll (q : NamedQueue) : List QMessage → List QEvent
  | [] => []
  | m :: ms => dispatch (q.handlers m.topic) m ++ q.dispatchAll ms

/-- Modelled from the spec: `Run()` of the queue, observed when the loop has
consumed every pending message: the queue left behind, what the loop did, and
the state of the loop.  The loop ends only when the queue was closed. -/
def NamedQueue.Run (q : NamedQueue) : NamedQueue × List QEvent × LoopState :=
  if q.closed then (q, [], .terminated)
  else ({ q with pending := [] }, q.dispatchAll q.pending, .waiting)

/-- A handler that always fails. -/
def sampleFailing : Handler := { name := "H1", fn := fun _ => some "boom" }

/-- A handler that always succeeds. -/
def sampleRecording : Handler := { name := "H2", fn := fun _ => none }

/-- A message on topic `login-log`. -/
def sampleMessage : QMessage := { topic := "login-log", payload := "alice", producedAt := 1 }

/-- A message on topic `operate-log`, produced earlier. -/
def sampleEarlier : QMessage := { topic := "operate-log", payload := "bob", producedAt := 0 }

/-- A queue in use: a handler on topic `operate-log` and one pending message
on that topic. -/
def sampleQueue : NamedQueue :=
  { name := "", table := [("operate-log", [sampleRecording])], pending := [sampleEarlier],
    capacity := 100, closed := false }

/-- The queue in use after registering the failing and the succeeding handler
on `login-log`, with a registration on `api-check` between them and one on
`operate-log` after them. -/
def sampleRegistered : NamedQueue :=
  (((sampleQueue.Register "login-log" sampleFailing).RegisterAll
    [("api-check", sampleRecording)]).Register "login-log" sampleRecording).RegisterAll
    [("operate-log", sampleFailing)]

/-! ## Sample inputs -/

/-- The world at process start: empty registry, clock at zero. -/
def world0 : World :=
  { rt := { cacheAdapter := none, queueAdapter := none, lockerAdapter := none,
            engine := none, routers := [] }
    clock := 0
    defers := [] }

/-- A route-registration function that installs an engine and two routes. -/
def sampleInitRouter (rt : Runtime) : Runtime :=
  { rt with
    engine := some { id := 7 }
    routers := rt.routers ++
      [ { httpMethod := "GET", relativePath := "/api/v1/sys-api", handler := "GetPage" },
        { httpMethod := "POST", relativePath := "/api/v1/login", handler := "Login" } ] }

/-- A configuration with a memory cache, no queue block, no locker block; the
interrupt arrives one minute after the listener started and all requests
finish in time. -/
def sampleEnv : Env where
  configYml := "config/settings.yml"
  apiCheck := false
  applicationMode := "dev"
  applicationHost := "0.0.0.0"
  applicationPort := 8000
  sslEnable := false
  sslPem := ""
  sslKeyStr := ""
  modeProd := "prod"
  cacheSetup := .ok { id := 1 }
  queueEmpty := true
  queueSetup := .error "unknown-backend"
  lockerEmpty := true
  lockerSetup := .error "unknown-backend"
  ginNew := { id := 9 }
  AppRouters := [sampleInitRouter]
  getStreamMessage := fun _ _ _ => .ok { id := 42 }
  append := fun _ _ => none
  listen := none
  serving := 60 * Second
  shutdown := fun _ _ _ => none
  red := id
  green := id
  logoContent := "go-admin"
  version := "2.0.0"
  locaHonst := "10.0.0.1"
  currentTimeStr := fun t => toString t

/-- The sample configuration with a queue block of type `unknown-backend`. -/
def envQueueUnknown : Env :=
  { sampleEnv with queueEmpty := false, queueSetup := .error "unknown-backend" }

/-- The sample configuration with a queue block and a locker block that both
construct. -/
def envAllConfigured : Env :=
  { sampleEnv with
    queueEmpty := false, queueSetup := .ok { id := 2 }
    lockerEmpty := false, lockerSetup := .ok { id := 3 } }

/-- The sample configuration with no queue block and a locker block whose
construction fails. -/
def envLockerBroken : Env :=
  { sampleEnv with lockerEmpty := false, lockerSetup := .error "unknown-backend" }

/-- The sample configuration where requests are still in flight when the
context expires, so `Shutdown` returns the context error. -/
def envShutdownTimeout : Env :=
  { sampleEnv with shutdown := fun _ _ _ => some "context deadline exceeded" }

/-- The sample configuration started with `--api`, where `GetStreamMessage`
fails. -/
def envApiCheckFails : Env :=
  { sampleEnv with apiCheck := true, getStreamMessage := fun _ _ _ => .error "no queue" }

/-- The sample configuration started with `--api`. -/
def envApiCheck : Env :=
  { sampleEnv with apiCheck := true }

/-- The sample configuration with no route-registration function. -/
def envNoRouters : Env :=
  { sampleEnv with AppRouters := [] }

/-! ## Supporting lemmas -/

/-- The loop over `AppRouters` always returns: it emits one event per function
and leaves the registry the functions produce. -/
theorem rangeAppRouters_eq (i : Nat) (fs : List (Runtime → Runtime)) :
    rangeAppRouters i fs = fun w =>
      Res.ret () (appRouterEvents i fs) { w with rt := applyRouters fs w.rt } := by
  induction fs generalizing i with
  | nil => rfl
  | cons f fs ih =>
    funext w
    show Proc.bind (emit (.appRouter i))
      (fun _ => Proc.bind (modifyRuntime f) (fun _ => rangeAppRouters (i + 1) fs)) w = _
    rw [ih]
    rfl

set_option maxHeartbeats 4000000 in
/-- The function `run` equals its closed form, for every environment and
starting world. -/
theorem run_eq (env : Env) (w : World) : run env w = runClosedForm env w := by
  unfold run runClosedForm servingEvents drainEvents beforeSelfCheck afterSelfCheck
    selfCheckEvents listenEvent bannerEvents srvOf
  simp only [rangeAppRouters_eq]
  cases h1 : (env.applicationMode == env.modeProd) <;>
  cases h2 : w.rt.engine <;>
  cases h3 : env.apiCheck <;>
  cases h4 : env.sslEnable <;>
  cases h6 : env.listen <;>
  cases h5 : env.shutdown ⟨env.applicationHost ++ ":" ++ toString env.applicationPort,
    (applyRouters env.AppRouters w.rt).engine⟩ (w.clock + 5 * Second) (w.clock + env.serving)
  all_goals
    rcases h7 : env.getStreamMessage "" .ApiCheck
      [("List", (applyRouters env.AppRouters w.rt).routers)] with e | m
    · simp [call, bind, Proc.bind, h1, h2, h3, h4, h5, h6, h7, defer, emit, getEngine,
        getRuntime, ginNew, pure, Proc.pure, logFatal, logPrint, osExit, tip, now, sleep,
        awaitInterrupt, contextWithTimeout, srvShutdown, getRouter, getMemoryQueue,
        getStreamMessage, queueAppend, runDefers, runDeferred]
    · rcases h8 : env.append "" m with _ | e <;>
      simp [call, bind, Proc.bind, h1, h2, h3, h4, h5, h6, h7, h8, defer, emit, getEngine,
        getRuntime, ginNew, pure, Proc.pure, logFatal, logPrint, osExit, tip, now, sleep,
        awaitInterrupt, contextWithTimeout, srvShutdown, getRouter, getMemoryQueue,
        getStreamMessage, queueAppend, runDefers, runDeferred]

/-- The events of `run`. -/
theorem run_events (env : Env) (w : World) :
    (run env w).events = servingEvents env w ++ drainEvents env w := by
  rw [run_eq]
  unfold runClosedForm
  cases env.listen
  · dsimp only
    cases env.shutdown (srvOf env w) (w.clock + 5 * Second) (w.clock + env.serving) <;> rfl
  · rfl

/-- The value `run` returns: nil after a successful shutdown, nothing when the
process ended. -/
theorem run_value (env : Env) (w : World) :
    (run env w).value =
      match env.listen with
      | some _ => none
      | none =>
        match env.shutdown (srvOf env w) (w.clock + 5 * Second) (w.clock + env.serving) with
        | some _ => none
        | none => some none := by
  rw [run_eq]
  unfold runClosedForm
  cases env.listen
  · dsimp only
    cases env.shutdown (srvOf env w) (w.clock + 5 * Second) (w.clock + env.serving) <;> rfl
  · rfl

/-- The exit status of `run`. -/
theorem run_exitCode (env : Env) (w : World) :
    (run env w).exitCode =
      match env.listen with
      | some _ => some 1
      | none =>
        match env.shutdown (srvOf env w) (w.clock + 5 * Second) (w.clock + env.serving) with
        | some _ => some 1
        | none => none := by
  rw [run_eq]
  unfold runClosedForm
  cases env.listen
  · dsimp only
    cases env.shutdown (srvOf env w) (w.clock + 5 * Second) (w.clock + env.serving) <;> rfl
  · rfl

/-- The world `run` leaves behind. -/
theorem run_world (env : Env) (w : World) :
    (run env w).world =
      match env.listen with
      | some _ =>
        { rt := applyRouters env.AppRouters w.rt, clock := w.clock,
          defers := [.cancel, .configStop] }
      | none =>
        match env.shutdown (srvOf env w) (w.clock + 5 * Second) (w.clock + env.serving) with
        | some _ =>
          { rt := applyRouters env.AppRouters w.rt, clock := w.clock + env.serving,
            defers := [.cancel, .configStop] }
        | none =>
          { rt := applyRouters env.AppRouters w.rt, clock := w.clock + env.serving,
            defers := w.defers } := by
  rw [run_eq]
  unfold runClosedForm
  cases env.listen
  · dsimp only
    cases env.shutdown (srvOf env w) (w.clock + 5 * Second) (w.clock + env.serving) <;> rfl
  · rfl

/-- The registry after `run` is the one the route-registration functions
produce. -/
theorem run_world_rt (env : Env) (w : World) :
    (run env w).world.rt = applyRouters env.AppRouters w.rt := by
  rw [run_world]
  cases env.listen
  · dsimp only
    cases env.shutdown (srvOf env w) (w.clock + 5 * Second) (w.clock + env.serving) <;> rfl
  · rfl

/-- The self-check block consists of self-check steps only. -/
theorem selfCheckEvents_all (env : Env) (routers : List Router) :
    (selfCheckEvents env routers).all Event.isSelfCheck = true := by
  unfold selfCheckEvents
  cases env.apiCheck
  · rfl
  · cases env.getStreamMessage "" .ApiCheck [("List", routers)] with
    | error e => rfl
    | ok m => cases h : env.append "" m <;> simp [h, Event.isSelfCheck]

/-- A filter that rejects router invocations leaves nothing of the loop. -/
theorem appRouterEvents_filter (p : Event → Bool) (hp : ∀ i, p (.appRouter i) = false)
    (i : Nat) (fs : List (Runtime → Runtime)) : (appRouterEvents i fs).filter p = [] := by
  induction fs generalizing i with
  | nil => rfl
  | cons f fs ih => simp [appRouterEvents, hp, ih]

/-- The loop over `AppRouters` emits router invocations only. -/
theorem appRouterEvents_filter_self (i : Nat) (fs : List (Runtime → Runtime)) :
    (appRouterEvents i fs).filter Event.isAppRouter = appRouterEvents i fs := by
  induction fs generalizing i with
  | nil => rfl
  | cons f fs ih => simp [appRouterEvents, Event.isAppRouter, ih]

/-- When no route-registration function installs an engine, the registry holds
none after all of them have run. -/
theorem applyRouters_engine_none (fs : List (Runtime → Runtime)) (rt : Runtime)
    (h0 : rt.engine = none)
    (hf : ∀ f ∈ fs, ∀ r : Runtime, r.engine = none → (f r).engine = none) :
    (applyRouters fs rt).engine = none := by
  induction fs generalizing rt with
  | nil => exact h0
  | cons f fs ih =>
    exact ih (f rt) (hf f (List.mem_cons_self _ _) rt h0)
      (fun g hg => hf g (List.mem_cons_of_mem _ hg))

/-- The loop over `AppRouters` invokes the functions by increasing index. -/
theorem appRouterEvents_eq_range (i : Nat) (fs : List (Runtime → Runtime)) :
    appRouterEvents i fs = (List.range fs.length).map (fun k => Event.appRouter (i + k)) := by
  induction fs generalizing i with
  | nil => rfl
  | cons f fs ih =>
    rw [appRouterEvents, ih, List.length_cons, List.range_succ_eq_map]
    simp [Function.comp_def, Nat.add_comm, Nat.add_left_comm]

/-- Filtering the events before the self-check. -/
theorem beforeSelfCheck_filter (env : Env) (w : World) (p : Event → Bool)
    (h1 : p .ginSetReleaseMode = false) (h2 : p .getEngine = false) (h3 : p .ginNew = false)
    (h4 : p (.go .jobs) = false) :
    (beforeSelfCheck env w).filter p = (appRouterEvents 0 env.AppRouters).filter p := by
  unfold beforeSelfCheck
  cases (env.applicationMode == env.modeProd) <;> cases w.rt.engine <;>
    simp [List.filter_append, List.filter_cons, h1, h2, h3, h4]

/-- Filtering the events between the self-check and the wait for the
interrupt. -/
theorem afterSelfCheck_filter (env : Env) (w : World) (p : Event → Bool)
    (h1 : ∀ a b, p (.withTimeout a b) = false) (h2 : ∀ g, p (.go g) = false)
    (h3 : ∀ s, p (.stdout s) = false) (h4 : p .signalNotify = false) :
    (afterSelfCheck env w).filter p = [] := by
  unfold afterSelfCheck listenEvent bannerEvents
  cases env.sslEnable <;> simp [List.filter_cons, h1, h2, h3, h4]

/-- Filtering the events from the wait for the interrupt on. -/
theorem drainEvents_filter (env : Env) (w : World) (p : Event → Bool)
    (h1 : ∀ s, p (.logFatal s) = false) (h2 : ∀ t, p (.interrupt t) = false)
    (h3 : ∀ s, p (.stdout s) = false) (h4 : ∀ s d t, p (.shutdown s d t) = false)
    (h5 : p (.logPrint "Server exiting\n") = false) (h6 : p .cancel = false)
    (h7 : p .configStop = false) :
    (drainEvents env w).filter p = [] := by
  unfold drainEvents
  cases env.listen
  · dsimp only
    cases env.shutdown (srvOf env w) (w.clock + 5 * Second) (w.clock + env.serving) <;>
      simp [List.filter_cons, h1, h2, h3, h4, h5, h6, h7]
  · simp [List.filter_cons, h1]

/-- A filter that accepts only steps of the self-check sees, in `run`, the
self-check block alone. -/
theorem run_filter_selfCheck (env : Env) (w : World) (p : Event → Bool)
    (h1 : p .ginSetReleaseMode = false) (h2 : p .getEngine = false) (h3 : p .ginNew = false)
    (h4 : ∀ g, p (.go g) = false) (h5 : ∀ i, p (.appRouter i) = false)
    (h6 : ∀ a b, p (.withTimeout a b) = false) (h7 : ∀ s, p (.stdout s) = false)
    (h8 : p .signalNotify = false) (h9 : ∀ s, p (.logFatal s) = false)
    (h10 : ∀ t, p (.interrupt t) = false) (h11 : ∀ s d t, p (.shutdown s d t) = false)
    (h12 : p (.logPrint "Server exiting\n") = false) (h13 : p .cancel = false)
    (h14 : p .configStop = false) :
    (run env w).events.filter p =
      (selfCheckEvents env (applyRouters env.AppRouters w.rt).routers).filter p := by
  rw [run_events]
  unfold servingEvents
  simp only [List.filter_append]
  rw [beforeSelfCheck_filter env w p h1 h2 h3 (h4 _), appRouterEvents_filter p h5,
    afterSelfCheck_filter env w p h6 h4 h7 h8,
    drainEvents_filter env w p h9 h10 h7 h11 h12 h13 h14]
  simp

/-- A partial map undefined on router invocations yields nothing on the loop. -/
theorem appRouterEvents_filterMap {β : Type} (f : Event → Option β)
    (hf : ∀ i, f (.appRouter i) = none)
    (i : Nat) (fs : List (Runtime → Runtime)) : (appRouterEvents i fs).filterMap f = [] := by
  induction fs generalizing i with
  | nil => rfl
  | cons g fs ih => simp [appRouterEvents, hf, ih]

/-- The servers that occur in the events of `run`: the one the listener serves
and, when `Shutdown` is reached, the one it is called on. -/
theorem run_servers (env : Env) (w : World) :
    (run env w).events.filterMap Event.server? =
      srvOf env w ::
        (match env.listen with
         | some _ => []
         | none => [srvOf env w]) := by
  rw [run_events]
  unfold servingEvents beforeSelfCheck afterSelfCheck selfCheckEvents drainEvents listenEvent
    bannerEvents
  simp only [List.filterMap_append, appRouterEvents_filterMap Event.server? (fun _ => rfl)]
  have hself : ∀ rs, List.filterMap Event.server?
      (if env.apiCheck = true then
        [Event.getRouter, Event.getMemoryQueue "",
          Event.getStreamMessage "" Topic.ApiCheck [("List", rs)]] ++
        match env.getStreamMessage "" Topic.ApiCheck [("List", rs)] with
        | .error err => [Event.logPrint ("GetStreamMessage error, " ++ err ++ " \n")]
        | .ok m =>
          Event.append "" m ::
            match env.append "" m with
            | some err => [Event.logPrint ("Append message error, " ++ err ++ " \n")]
            | none => []
      else []) = [] := by
    intro rs
    cases env.apiCheck
    · rfl
    · cases env.getStreamMessage "" Topic.ApiCheck [("List", rs)] with
      | error e => rfl
      | ok m => cases h : env.append "" m <;> simp [h, Event.server?]
  rw [hself]
  cases (env.applicationMode == env.modeProd) <;> cases w.rt.engine <;>
    cases env.sslEnable <;> cases env.listen <;>
    first
    | rfl
    | (dsimp only
       cases env.shutdown (srvOf env w) (w.clock + 5 * Second) (w.clock + env.serving) <;> rfl)

/-- Removing the entries of one key does not change the lookup of another. -/
theorem lookup_filter_ne {β : Type} (T U : String) (hne : U ≠ T) (t : List (String × β)) :
    (t.filter (fun p => p.1 != T)).lookup U = t.lookup U := by
  induction t with
  | nil => rfl
  | cons p t ih =>
    obtain ⟨k, v⟩ := p
    by_cases hk : k = T
    · subst hk
      have h1 : (U == k) = false := by simpa using hne
      simp [List.filter_cons, List.lookup, h1, ih]
    · have h2 : (k != T) = true := by simpa using hk
      simp only [List.filter_cons, h2, if_true, List.lookup]
      cases (U == k) <;> simp [ih]

/-- A registration appends the handler to the handlers of its topic. -/
theorem handlers_register_same (q : NamedQueue) (T : String) (h : Handler) :
    (q.Register T h).handlers T = q.handlers T ++ [h] := by
  simp [NamedQueue.Register, NamedQueue.handlers, List.lookup]

/-- A registration leaves the handlers of every other topic as they were. -/
theorem handlers_register_other (q : NamedQueue) (T U : String) (h : Handler) (hne : U ≠ T) :
    (q.Register T h).handlers U = q.handlers U := by
  have h1 : (U == T) = false := by simpa using hne
  simp [NamedQueue.Register, NamedQueue.handlers, List.lookup, h1, lookup_filter_ne T U hne]

/-- Registrations on other topics change neither the handlers of a topic nor
the buffer, the capacity or the closed flag. -/
theorem registerAll_frame (rs : List (String × Handler)) (q : NamedQueue) (T : String)
    (hrs : ∀ r ∈ rs, r.1 ≠ T) :
    (q.RegisterAll rs).handlers T = q.handlers T ∧
    (q.RegisterAll rs).pending = q.pending ∧
    (q.RegisterAll rs).capacity = q.capacity ∧
    (q.RegisterAll rs).closed = q.closed := by
  induction rs generalizing q with
  | nil => exact ⟨rfl, rfl, rfl, rfl⟩
  | cons r rs ih =>
    have hr : T ≠ r.1 := fun h => hrs r (List.mem_cons_self _ _) h.symm
    have := ih (q.Register r.1 r.2) (fun x hx => hrs x (List.mem_cons_of_mem _ hx))
    refine ⟨?_, this.2.1, this.2.2.1, this.2.2.2⟩
    show ((q.Register r.1 r.2).RegisterAll rs).handlers T = _
    rw [this.1, handlers_register_other q r.1 T r.2 hr]

/-- The dispatch of a message invokes every handler, in order, whatever the
handlers return. -/
theorem dispatch_filter_invoked (hs : List Handler) (M : QMessage) :
    (dispatch hs M).filter QEvent.isInvoked = hs.map (fun h => QEvent.invoked h.name M) := by
  induction hs with
  | nil => rfl
  | cons h hs ih =>
    unfold dispatch
    cases h.fn M <;> simp [QEvent.isInvoked, ih]

/-- The dispatch of a message reports the error of a failing handler. -/
theorem dispatch_reports_error (hs1 hs2 : List Handler) (H : Handler) (M : QMessage) (err : Err)
    (herr : H.fn M = some err) :
    QEvent.handlerError H.name M err ∈ dispatch (hs1 ++ H :: hs2) M := by
  induction hs1 with
  | nil =>
    show _ ∈ dispatch (H :: hs2) M
    unfold dispatch
    simp [herr]
  | cons h hs1 ih =>
    show _ ∈ dispatch (h :: (hs1 ++ H :: hs2)) M
    unfold dispatch
    cases h.fn M <;> simp [ih]

/-- The loop handles the pending messages first and the new message last. -/
theorem dispatchAll_append (q : NamedQueue) (ps : List QMessage) (m : QMessage) :
    q.dispatchAll (ps ++ [m]) = q.dispatchAll ps ++ dispatch (q.handlers m.topic) m := by
  induction ps with
  | nil => simp [NamedQueue.dispatchAll]
  | cons p ps ih => simp [NamedQueue.dispatchAll, ih]

/-- The loop depends on the queue through its registration table only. -/
theorem dispatchAll_congr (q1 q2 : NamedQueue) (h : q1.table = q2.table)
    (l : List QMessage) : q1.dispatchAll l = q2.dispatchAll l := by
  induction l with
  | nil => rfl
  | cons x l ih =>
    have hx : q1.handlers x.topic = q2.handlers x.topic := by
      simp only [NamedQueue.handlers, h]
    simp only [NamedQueue.dispatchAll, ih, hx]

/-- On an open queue with room, `Append` succeeds and `Run` dispatches the
messages already pending and then the new one to the handlers of its topic,
stays waiting, and leaves the buffer empty. -/
theorem run_after_append (q : NamedQueue) (m : QMessage)
    (hc : q.pending.length < q.capacity) (ho : q.closed = false) :
    (q.Append m).2 = none ∧
    ((q.Append m).1.Run).2.1 = q.dispatchAll q.pending ++ dispatch (q.handlers m.topic) m ∧
    ((q.Append m).1.Run).2.2 = .waiting ∧
    ((q.Append m).1.Run).1 = { q with pending := [] } := by
  have hA : q.Append m = ({ q with pending := q.pending ++ [m] }, none) := by
    simp [NamedQueue.Append, hc]
  have hR : ({ q with pending := q.pending ++ [m] } : NamedQueue).Run =
      ({ q with pending := [] },
        ({ q with pending := q.pending ++ [m] } : NamedQueue).dispatchAll (q.pending ++ [m]),
        .waiting) := by
    simp [NamedQueue.Run, ho]
  rw [hA]
  simp only [hR]
  refine ⟨trivial, ?_, trivial, trivial⟩
  rw [dispatchAll_append]
  have hd := dispatchAll_congr
    ({ q with pending := q.pending ++ [m] } : NamedQueue) q rfl q.pending
  rw [hd]
  rfl

/-! ## Startup: `setup` -/

/-- Claim C1: on every execution of `setup` that returns, the events are
`pre ++ [Register LoginLog SaveLoginLog, Register OperateLog SaveOperaLog,
Register ApiCheck SaveSysApi] ++ post` on the default queue, where `pre` holds
no registration and no start of a run loop, `post` holds no further
registration, and the run loops started in `post` are `queue.Run()` on the
default queue followed, when a queue adapter was configured, by the deferred
`queueAdapter.Run()`.  So the three registrations happen in that order, each
exactly once, before any run loop is started. -/
theorem setup_registers_before_run_loops (env : Env) (w : World)
    (h : (setup env w).exitCode = none) :
    ∃ pre post,
      (setup env w).events = pre ++
        [.register "" .LoginLog .SaveLoginLog, .register "" .OperateLog .SaveOperaLog,
         .register "" .ApiCheck .SaveSysApi] ++ post ∧
      pre.filter Event.isQueueStep = [] ∧
      post.filter Event.isRegister = [] ∧
      post.filter Event.isRunStart = .go (.queueRun "") ::
        (match env.queueEmpty, env.queueSetup with
         | false, .ok a => [.go (.adapterRun a)]
         | _, _ => []) := by
  refine ⟨(setup env w).events.takeWhile (fun e => !e.isQueueStep),
    ((setup env w).events.dropWhile (fun e => !e.isQueueStep)).drop 3, ?_⟩
  obtain ⟨_, _, _, _, _, _, _, _, _, cs, qe, qs, le, ls, _, _, _, _, _, _, _, _, _, _, _, _, _⟩ := env
  rcases cs with e | c <;> rcases qe with _ | _ <;> rcases qs with e2 | q <;>
    rcases le with _ | _ <;> rcases ls with e3 | l <;>
    first
    | exact ⟨rfl, rfl, rfl, rfl⟩
    | exact Option.noConfusion h

/-- Claim C1, at a concrete input: with cache, queue and locker all
configured, `setup` returns, and the registrations precede `queue.Run()` and
the deferred run of the queue adapter. -/
theorem setup_registers_before_run_loops_witness :
    (setup envAllConfigured world0).exitCode = none ∧
    ∃ pre post,
      (setup envAllConfigured world0).events = pre ++
        [.register "" .LoginLog .SaveLoginLog, .register "" .OperateLog .SaveOperaLog,
         .register "" .ApiCheck .SaveSysApi] ++ post ∧
      pre.filter Event.isQueueStep = [] ∧
      post.filter Event.isRegister = [] ∧
      post.filter Event.isRunStart =
        [.go (.queueRun ""), .go (.adapterRun { id := 2 })] :=
  ⟨rfl, setup_registers_before_run_loops envAllConfigured world0 rfl⟩

/-- Claim C2 as stated fails: with an empty queue block and a locker block
whose `Setup` fails, `setup` ends in `log.Fatalf` with status 1 and registers
no consumer, although the queue block is empty. -/
theorem setup_empty_queue_can_still_be_fatal :
    envLockerBroken.queueEmpty = true ∧
    envLockerBroken.cacheSetup.isOk = true ∧
    (setup envLockerBroken world0).exitCode = some 1 ∧
    (setup envLockerBroken world0).events.filter Event.isRegister = [] ∧
    (setup envLockerBroken world0).events.getLast? =
      some (.logFatal "locker setup error, unknown-backend\n") := by
  decide

/-- Claim C2, amended: for the queue and for the locker, when the block is
empty `setup` makes no `Setup` call and no setter call for it, the registry
slot keeps the value it had, no adapter run loop is started (queue), and the
block raises no fatal error of its own: `setup` returns exactly when the cache
`Setup` succeeded and the other optional block is empty or its `Setup`
succeeded, and when it returns the three consumers are registered. -/
theorem setup_skips_empty_capability (env : Env) (w : World) :
    (env.queueEmpty = true →
      (setup env w).events.filter Event.isQueueConstruction = [] ∧
      (setup env w).world.rt.queueAdapter = w.rt.queueAdapter ∧
      (setup env w).events.filter Event.isAdapterRun = [] ∧
      ((setup env w).exitCode = none ↔
        env.cacheSetup.isOk = true ∧ (env.lockerEmpty = true ∨ env.lockerSetup.isOk = true)) ∧
      ((setup env w).exitCode = none →
        (setup env w).events.filter Event.isRegister = builtinRegistrations)) ∧
    (env.lockerEmpty = true →
      (setup env w).events.filter Event.isLockerConstruction = [] ∧
      (setup env w).world.rt.lockerAdapter = w.rt.lockerAdapter ∧
      ((setup env w).exitCode = none ↔
        env.cacheSetup.isOk = true ∧ (env.queueEmpty = true ∨ env.queueSetup.isOk = true)) ∧
      ((setup env w).exitCode = none →
        (setup env w).events.filter Event.isRegister = builtinRegistrations)) := by
  obtain ⟨_, _, _, _, _, _, _, _, _, cs, qe, qs, le, ls, _, _, _, _, _, _, _, _, _, _, _, _, _⟩ := env
  rcases cs with e | c <;> rcases qe with _ | _ <;> rcases qs with e2 | q <;>
    rcases le with _ | _ <;> rcases ls with e3 | l <;>
    simp [setup, call, bind, Proc.bind, defer, emit, pure, Proc.pure, logFatal, logPrint, osExit,
      runDefers, runDeferred, cacheConfigSetup, queueConfigEmpty, queueConfigSetup,
      lockerConfigEmpty, lockerConfigSetup, setCacheAdapter, setQueueAdapter, setLockerAdapter,
      modifyRuntime, getMemoryQueue, queueRegister, Res.events, Res.world, Res.exitCode,
      Event.isQueueConstruction, Event.isLockerConstruction, Event.isAdapterRun,
      Event.isRegister, builtinRegistrations, Except.isOk, Except.toBool]

/-- Claim C2, amended, at a concrete input: with both optional blocks empty
the two slots stay as they were and the three consumers are registered. -/
theorem setup_skips_empty_capability_witness :
    sampleEnv.queueEmpty = true ∧ sampleEnv.lockerEmpty = true ∧
    (setup sampleEnv world0).world.rt.queueAdapter = none ∧
    (setup sampleEnv world0).world.rt.lockerAdapter = none ∧
    (setup sampleEnv world0).exitCode = none ∧
    (setup sampleEnv world0).events.filter Event.isRegister = builtinRegistrations :=
  ⟨rfl, rfl, ((setup_skips_empty_capability sampleEnv world0).1 rfl).2.1,
    ((setup_skips_empty_capability sampleEnv world0).2 rfl).2.1,
    (((setup_skips_empty_capability sampleEnv world0).1 rfl).2.2.2.1).2 ⟨rfl, Or.inl rfl⟩,
    ((setup_skips_empty_capability sampleEnv world0).1 rfl).2.2.2.2
      ((((setup_skips_empty_capability sampleEnv world0).1 rfl).2.2.2.1).2 ⟨rfl, Or.inl rfl⟩)⟩

/-- Claim C3: when an adapter `Setup` call made by `setup` returns an error
(the cache always; the queue and the locker when their block is not empty and
the earlier steps succeeded), the command ends with exit status 1 and `run`
never returns a value; the slot of that adapter keeps the value it had; the
last two events are that `Setup` call and the `log.Fatalf` message; and no
later step happens: no consumer registration, no start of a run loop (also not
the deferred run of an already constructed queue adapter), no HTTP listener,
and after a cache failure no captcha store. -/
theorem startCmd_adapter_failure_is_fatal (env : Env) (w : World) :
    (∀ e, env.cacheSetup = .error e →
      (StartCmd env w).exitCode = some 1 ∧
      (StartCmd env w).value = none ∧
      (StartCmd env w).world.rt = w.rt ∧
      (∃ pre, (StartCmd env w).events =
        pre ++ [.cacheSetup, .logFatal ("cache setup error, " ++ e ++ "\n")]) ∧
      (StartCmd env w).events.filter
        (fun ev => ev.isCaptchaStore || ev.isLaterStep) = []) ∧
    (∀ e, env.cacheSetup.isOk = true → env.queueEmpty = false → env.queueSetup = .error e →
      (StartCmd env w).exitCode = some 1 ∧
      (StartCmd env w).value = none ∧
      (StartCmd env w).world.rt.queueAdapter = w.rt.queueAdapter ∧
      (∃ pre, (StartCmd env w).events =
        pre ++ [.queueSetup, .logFatal ("queue setup error, " ++ e ++ "\n")]) ∧
      (StartCmd env w).events.filter Event.isLaterStep = []) ∧
    (∀ e, env.cacheSetup.isOk = true →
      (env.queueEmpty = true ∨ env.queueSetup.isOk = true) →
      env.lockerEmpty = false → env.lockerSetup = .error e →
      (StartCmd env w).exitCode = some 1 ∧
      (StartCmd env w).value = none ∧
      (StartCmd env w).world.rt.lockerAdapter = w.rt.lockerAdapter ∧
      (∃ pre, (StartCmd env w).events =
        pre ++ [.lockerSetup, .logFatal ("locker setup error, " ++ e ++ "\n")]) ∧
      (StartCmd env w).events.filter Event.isLaterStep = []) := by
  obtain ⟨_, _, _, _, _, _, _, _, _, cs, qe, qs, le, ls, _, _, _, _, _, _, _, _, _, _, _, _, _⟩ := env
  refine ⟨?_, ?_, ?_⟩
  · rintro e ⟨⟩
    exact ⟨rfl, rfl, rfl, ⟨_, (List.take_append_drop 5 _).symm⟩, rfl⟩
  · rintro e hc ⟨⟩ ⟨⟩
    rcases cs with e1 | c
    · cases hc
    · exact ⟨rfl, rfl, rfl, ⟨_, (List.take_append_drop 9 _).symm⟩, rfl⟩
  · rintro e hc hq ⟨⟩ ⟨⟩
    rcases cs with e1 | c
    · cases hc
    · rcases qe with _ | _
      · rcases qs with e2 | q
        · rcases hq with hq | hq <;> cases hq
        · exact ⟨rfl, rfl, rfl, ⟨_, (List.take_append_drop 12 _).symm⟩, rfl⟩
      · exact ⟨rfl, rfl, rfl, ⟨_, (List.take_append_drop 10 _).symm⟩, rfl⟩

/-- Claim C3, at a concrete input: a queue block of type `unknown-backend`
ends the command with status 1, the queue slot stays unset, and nothing is
registered, run or served. -/
theorem startCmd_adapter_failure_is_fatal_witness :
    (StartCmd envQueueUnknown world0).exitCode = some 1 ∧
    (StartCmd envQueueUnknown world0).world.rt.queueAdapter = none ∧
    (StartCmd envQueueUnknown world0).events.filter Event.isLaterStep = [] :=
  have h := (startCmd_adapter_failure_is_fatal envQueueUnknown world0).2.1
    "unknown-backend" rfl rfl rfl
  ⟨h.1, h.2.2.1, h.2.2.2.2⟩

/-! ## Serving and shutdown: `run` -/

/-- Claim C4, the code at a failing input: the server starts at time 0 and the
interrupt arrives after 60 seconds of serving; `srv.Shutdown` is then called
at time 60 s with a context whose deadline is 5 s, the time of
`context.WithTimeout` plus five seconds, not 65 s. -/
theorem run_shutdown_deadline_fixed_before_serving :
    (run sampleEnv world0).events.filterMap Event.interruptTime? = [60 * Second] ∧
    (run sampleEnv world0).events.filterMap Event.shutdownDeadline? = [5 * Second] ∧
    (run sampleEnv world0).events.filter Event.isShutdown =
      [.shutdown (srvOf sampleEnv world0) (5 * Second) (60 * Second)] := by
  decide

/-- Claim C5: when the listener serves until the interrupt, `run` calls
`srv.Shutdown` once the interrupt is received; `run` returns nil exactly when
that call returns no error; and when it returns an error the process ends with
`log.Fatal("Server Shutdown:", err)` and status 1, so that `run` returns
nothing. -/
theorem run_returns_nil_iff_shutdown_ok (env : Env) (w : World) (h : env.listen = none) :
    Event.shutdown (srvOf env w) (w.clock + 5 * Second) (w.clock + env.serving)
      ∈ (run env w).events ∧
    ((run env w).value = some none ↔
      env.shutdown (srvOf env w) (w.clock + 5 * Second) (w.clock + env.serving) = none) ∧
    (∀ err, env.shutdown (srvOf env w) (w.clock + 5 * Second) (w.clock + env.serving) = some err →
      (run env w).exitCode = some 1 ∧ (run env w).value = none ∧
      (run env w).events.getLast? = some (.logFatal ("Server Shutdown:" ++ err))) := by
  rw [run_eq]
  unfold runClosedForm drainEvents
  simp only [h]
  cases h5 : env.shutdown (srvOf env w) (w.clock + 5 * Second) (w.clock + env.serving) <;>
    simp [Res.events, Res.value, Res.exitCode]

/-- Claim C5, at concrete inputs: `run` returns nil when `Shutdown` succeeds,
and ends with status 1 without returning when `Shutdown` reports the expired
context. -/
theorem run_returns_nil_iff_shutdown_ok_witness :
    (run sampleEnv world0).value = some none ∧
    (run envShutdownTimeout world0).value = none ∧
    (run envShutdownTimeout world0).exitCode = some 1 :=
  ⟨(run_returns_nil_iff_shutdown_ok sampleEnv world0 rfl).2.1.2 rfl,
   ((run_returns_nil_iff_shutdown_ok envShutdownTimeout world0 rfl).2.2
      "context deadline exceeded" rfl).2.1,
   ((run_returns_nil_iff_shutdown_ok envShutdownTimeout world0 rfl).2.2
      "context deadline exceeded" rfl).1⟩

/-- Claim C6, the code at a failing input: when `Shutdown` returns the context
error, `run` ends in `log.Fatal` with status 1 and neither deferred call
(`cancel`, `config.Stop`) is executed; on the successful path both are. -/
theorem run_shutdown_timeout_skips_cleanup :
    (run envShutdownTimeout world0).exitCode = some 1 ∧
    (run envShutdownTimeout world0).events.filter Event.isCleanup = [] ∧
    (run envShutdownTimeout world0).world.defers = [.cancel, .configStop] ∧
    (run sampleEnv world0).events.filter Event.isCleanup = [.cancel, .configStop] := by
  decide

/-- Claim C7: the events of `run` are `A ++ S ++ B`, where `A` (everything up
to starting the jobs goroutine) and `B` (everything from the creation of the
shutdown context on: the listener start, the wait for the interrupt, the
shutdown) do not depend on the results of `GetStreamMessage` and `Append`, and
`S` holds only steps of the self-check.  Whatever these two calls return, the
returned value, the exit status and the final world of `run` are the same, and
a failure of either call is logged in `S`. -/
theorem run_self_check_failure_not_fatal (env : Env) (w : World) :
    ∃ A B : List Event,
      A.getLast? = some (.go .jobs) ∧
      B.head? = some (.withTimeout w.clock (5 * Second)) ∧
      (∃ l ∈ B, l.isListen = true) ∧
      Event.signalNotify ∈ B ∧
      (env.listen = none → Event.interrupt (w.clock + env.serving) ∈ B) ∧
      ∀ (gsm : String → Topic → Payload → Except Err Message)
        (app : String → Message → Option Err),
        (run (env.withSelfCheck gsm app) w).value = (run env w).value ∧
        (run (env.withSelfCheck gsm app) w).exitCode = (run env w).exitCode ∧
        (run (env.withSelfCheck gsm app) w).world = (run env w).world ∧
        ∃ S : List Event,
          (run (env.withSelfCheck gsm app) w).events = A ++ S ++ B ∧
          S.all Event.isSelfCheck = true ∧
          (env.apiCheck = true →
            (∀ e, gsm "" .ApiCheck [("List", (applyRouters env.AppRouters w.rt).routers)]
                = .error e →
              Event.logPrint ("GetStreamMessage error, " ++ e ++ " \n") ∈ S) ∧
            (∀ m e, gsm "" .ApiCheck [("List", (applyRouters env.AppRouters w.rt).routers)]
                = .ok m → app "" m = some e →
              Event.logPrint ("Append message error, " ++ e ++ " \n") ∈ S)) := by
  refine ⟨beforeSelfCheck env w, afterSelfCheck env w ++ drainEvents env w, ?_, ?_, ?_, ?_, ?_, ?_⟩
  · unfold beforeSelfCheck
    rw [List.getLast?_append]
    rfl
  · rfl
  · refine ⟨listenEvent env w, by simp [afterSelfCheck], ?_⟩
    unfold listenEvent
    split <;> rfl
  · simp [afterSelfCheck, bannerEvents]
  · intro h
    simp [drainEvents, h]
  · intro gsm app
    refine ⟨?_, ?_, ?_, selfCheckEvents (env.withSelfCheck gsm app)
      (applyRouters env.AppRouters w.rt).routers, ?_, selfCheckEvents_all _ _, ?_⟩
    · rw [run_value, run_value]; rfl
    · rw [run_exitCode, run_exitCode]; rfl
    · rw [run_world, run_world]; rfl
    · rw [run_events]
      show (beforeSelfCheck env w ++ _ ++ afterSelfCheck env w) ++ drainEvents env w = _
      simp only [List.append_assoc]
      rfl
    · intro hapi
      have hapi1 : (env.withSelfCheck gsm app).apiCheck = true := hapi
      have hg : (env.withSelfCheck gsm app).getStreamMessage = gsm := rfl
      have ha : (env.withSelfCheck gsm app).append = app := rfl
      refine ⟨?_, ?_⟩
      · intro e he
        simp [selfCheckEvents, hapi1, hg, he]
      · intro m e hm he
        simp [selfCheckEvents, hapi1, hg, ha, hm, he]

/-- Claim C7, at a concrete input: started with `--api`, `run` returns nil
both when `GetStreamMessage` fails and when the self-check succeeds. -/
theorem run_self_check_failure_not_fatal_witness :
    (run (envApiCheck.withSelfCheck (fun _ _ _ => .error "no queue") envApiCheck.append)
      world0).value = (run envApiCheck world0).value ∧
    (run envApiCheck world0).value = some none :=
  ⟨(run_self_check_failure_not_fatal envApiCheck world0).elim fun _ hA =>
      hA.elim fun _ hB => (hB.2.2.2.2.2 (fun _ _ _ => .error "no queue") envApiCheck.append).1,
   by decide⟩

/-- Claim C8: with `--api` set, the route table is read after all the
route-registration functions have run (their invocations all precede
`GetRouter`, and the payload holds the routes of the registry they produced);
`GetStreamMessage` is called once, with queue name `""`, topic
`global.ApiCheck` and payload `[("List", routes)]`; and `Append` is called
exactly once, on queue `""` with the message that call returned, when it
succeeded, and not at all when it failed.  With the flag unset neither call
is made. -/
theorem run_api_check_enqueue (env : Env) (w : World) :
    (env.apiCheck = true →
      (∃ pre post, (run env w).events = pre ++ Event.getRouter :: post ∧
        pre.filter Event.isAppRouter =
          (List.range env.AppRouters.length).map Event.appRouter ∧
        post.filter Event.isAppRouter = []) ∧
      (run env w).events.filter Event.isGetStreamMessage =
        [.getStreamMessage "" .ApiCheck
          [("List", (applyRouters env.AppRouters w.rt).routers)]] ∧
      (run env w).events.filter Event.isAppend =
        match env.getStreamMessage "" .ApiCheck
          [("List", (applyRouters env.AppRouters w.rt).routers)] with
        | .ok m => [.append "" m]
        | .error _ => []) ∧
    (env.apiCheck = false →
      (run env w).events.filter Event.isGetStreamMessage = [] ∧
      (run env w).events.filter Event.isAppend = []) := by
  have hG := run_filter_selfCheck env w Event.isGetStreamMessage rfl rfl rfl (fun _ => rfl)
    (fun _ => rfl) (fun _ _ => rfl) (fun _ => rfl) rfl (fun _ => rfl) (fun _ => rfl)
    (fun _ _ _ => rfl) rfl rfl rfl
  have hA := run_filter_selfCheck env w Event.isAppend rfl rfl rfl (fun _ => rfl)
    (fun _ => rfl) (fun _ _ => rfl) (fun _ => rfl) rfl (fun _ => rfl) (fun _ => rfl)
    (fun _ _ _ => rfl) rfl rfl rfl
  refine ⟨fun hapi => ⟨?_, ?_, ?_⟩, fun hapi => ⟨?_, ?_⟩⟩
  · refine ⟨beforeSelfCheck env w,
      (selfCheckEvents env (applyRouters env.AppRouters w.rt).routers).tail ++
        (afterSelfCheck env w ++ drainEvents env w), ?_, ?_, ?_⟩
    · rw [run_events]
      unfold servingEvents
      have : selfCheckEvents env (applyRouters env.AppRouters w.rt).routers =
          Event.getRouter ::
            (selfCheckEvents env (applyRouters env.AppRouters w.rt).routers).tail := by
        simp [selfCheckEvents, hapi]
      conv_lhs => rw [this]
      simp only [List.append_assoc, List.cons_append, List.tail_cons]
    · rw [beforeSelfCheck_filter env w _ rfl rfl rfl rfl, appRouterEvents_filter_self,
        appRouterEvents_eq_range]
      simp
    · simp only [List.filter_append]
      rw [afterSelfCheck_filter env w _ (fun _ _ => rfl) (fun _ => rfl) (fun _ => rfl) rfl,
        drainEvents_filter env w _ (fun _ => rfl) (fun _ => rfl) (fun _ => rfl)
          (fun _ _ _ => rfl) rfl rfl rfl]
      unfold selfCheckEvents
      simp only [hapi, if_true]
      cases env.getStreamMessage "" .ApiCheck
          [("List", (applyRouters env.AppRouters w.rt).routers)] with
      | error e => rfl
      | ok m => cases h : env.append "" m <;> simp [h, Event.isAppRouter]
  · rw [hG]
    unfold selfCheckEvents
    simp only [hapi, if_true]
    cases env.getStreamMessage "" .ApiCheck
        [("List", (applyRouters env.AppRouters w.rt).routers)] with
    | error e => rfl
    | ok m => cases h : env.append "" m <;> simp [h, Event.isGetStreamMessage]
  · rw [hA]
    unfold selfCheckEvents
    simp only [hapi, if_true]
    cases env.getStreamMessage "" .ApiCheck
        [("List", (applyRouters env.AppRouters w.rt).routers)] with
    | error e => rfl
    | ok m => cases h : env.append "" m <;> simp [h, Event.isAppend]
  · rw [hG]; simp [selfCheckEvents, hapi]
  · rw [hA]; simp [selfCheckEvents, hapi]

/-- Claim C8, at concrete inputs: with `--api` the one message built from the
two registered routes is appended once; when `GetStreamMessage` fails and when
the flag is unset nothing is appended. -/
theorem run_api_check_enqueue_witness :
    (run envApiCheck world0).events.filter Event.isGetStreamMessage =
      [.getStreamMessage "" .ApiCheck [("List", (sampleInitRouter world0.rt).routers)]] ∧
    (run envApiCheck world0).events.filter Event.isAppend = [.append "" { id := 42 }] ∧
    (run envApiCheckFails world0).events.filter Event.isAppend = [] ∧
    (run sampleEnv world0).events.filter Event.isAppend = [] :=
  ⟨((run_api_check_enqueue envApiCheck world0).1 rfl).2.1,
   ((run_api_check_enqueue envApiCheck world0).1 rfl).2.2,
   ((run_api_check_enqueue envApiCheckFails world0).1 rfl).2.2,
   ((run_api_check_enqueue sampleEnv world0).2 rfl).2⟩

/-- Claim C10: `run` starts the listener with a server whose `Handler` is the
engine of the registry after every route-registration function has run and
whose `Addr` is the configured host, a colon, and the port in decimal (the
same server is passed to `Shutdown`).  `run` itself never writes the registry,
and its whole result does not depend on the engine `gin.New()` returns, which
is created when the registry holds no engine at entry.  So when the registry
holds no engine at entry and no route-registration function installs one, the
registry still holds none afterwards and the `Handler` is nil. -/
theorem run_server_handler_and_addr (env : Env) (w : World) :
    (run env w).events.filterMap Event.server? ≠ [] ∧
    (∀ srv ∈ (run env w).events.filterMap Event.server?,
      srv.handler = (applyRouters env.AppRouters w.rt).engine ∧
      srv.addr = env.applicationHost ++ ":" ++ toString env.applicationPort) ∧
    (run env w).world.rt = applyRouters env.AppRouters w.rt ∧
    (∀ g : Engine, run { env with ginNew := g } w = run env w) ∧
    (w.rt.engine = none → Event.ginNew ∈ (run env w).events) ∧
    (w.rt.engine = none →
      (∀ f ∈ env.AppRouters, ∀ r : Runtime, r.engine = none → (f r).engine = none) →
      (run env w).world.rt.engine = none ∧
      ∀ srv ∈ (run env w).events.filterMap Event.server?, srv.handler = none) := by
  have hs : ∀ srv ∈ (run env w).events.filterMap Event.server?, srv = srvOf env w := by
    intro srv hsrv
    rw [run_servers] at hsrv
    cases h : env.listen <;> simp [h] at hsrv <;> exact hsrv
  refine ⟨?_, ?_, run_world_rt env w, ?_, ?_, ?_⟩
  · rw [run_servers]; simp
  · intro srv hsrv
    rw [hs srv hsrv]
    exact ⟨rfl, rfl⟩
  · intro g
    rw [run_eq, run_eq]
    rfl
  · intro h
    rw [run_events]
    simp [servingEvents, beforeSelfCheck, h]
  · intro h hf
    have hnone := applyRouters_engine_none env.AppRouters w.rt h hf
    refine ⟨by rw [run_world_rt]; exact hnone, ?_⟩
    intro srv hsrv
    rw [hs srv hsrv]
    exact hnone

/-- Claim C10, at a concrete input: with no route-registration function and
an empty registry, `gin.New()` is called, the registry holds no engine
afterwards, and the server address is `0.0.0.0:8000` with a nil `Handler`. -/
theorem run_server_handler_and_addr_witness :
    Event.ginNew ∈ (run envNoRouters world0).events ∧
    (run envNoRouters world0).world.rt.engine = none ∧
    (∀ srv ∈ (run envNoRouters world0).events.filterMap Event.server?,
      srv.handler = none) ∧
    (run envNoRouters world0).events.filterMap Event.server? =
      [{ addr := "0.0.0.0:8000", handler := none },
       { addr := "0.0.0.0:8000", handler := none }] :=
  ⟨(run_server_handler_and_addr envNoRouters world0).2.2.2.2.1 rfl,
   ((run_server_handler_and_addr envNoRouters world0).2.2.2.2.2 rfl
      (fun _ hf => absurd hf (List.not_mem_nil _))).1,
   ((run_server_handler_and_addr envNoRouters world0).2.2.2.2.2 rfl
      (fun _ hf => absurd hf (List.not_mem_nil _))).2,
   by decide⟩

/-! ## The in-process event queue -/

/-- Claim C9, against the queue as the specification describes it: take any
open queue `q0` with room for a message, whatever its handlers and pending
messages, and register `H1` and then `H2` to topic `T`, with any registrations
on other topics between and after them.  Then the handlers of `T` are those
`q0` had followed by `H1`, `H2`; appending a message `M` on `T` succeeds; `Run`
dispatches the messages that were pending and then `M`, and on `M` it invokes
the earlier handlers of `T`, then `H1`, then `H2`, whatever `H1` returns; an
error of `H1` is reported; the loop is still waiting afterwards, and a next
message on `T` is dispatched in the same way.  In the statement `q` names the
queue after the registrations. -/
theorem queue_dispatch_order_and_isolation (q0 : NamedQueue) (T : String) (H1 H2 : Handler)
    (between later : List (String × Handler)) (M M2 : QMessage)
    (hopen : q0.closed = false) (hroom : q0.pending.length < q0.capacity)
    (hb : ∀ r ∈ between, r.1 ≠ T) (hl : ∀ r ∈ later, r.1 ≠ T)
    (hM : M.topic = T) (hM2 : M2.topic = T) :
    ∀ q : NamedQueue,
      q = (((q0.Register T H1).RegisterAll between).Register T H2).RegisterAll later →
      q.handlers T = q0.handlers T ++ [H1, H2] ∧
      (q.Append M).2 = none ∧
      ((q.Append M).1.Run).2.1 =
        q.dispatchAll q0.pending ++ dispatch (q0.handlers T ++ [H1, H2]) M ∧
      (dispatch (q0.handlers T ++ [H1, H2]) M).filter QEvent.isInvoked =
        (q0.handlers T).map (fun h => QEvent.invoked h.name M) ++
          [.invoked H1.name M, .invoked H2.name M] ∧
      (∀ err, H1.fn M = some err →
        QEvent.handlerError H1.name M err ∈ ((q.Append M).1.Run).2.1) ∧
      ((q.Append M).1.Run).2.2 = .waiting ∧
      ((((q.Append M).1.Run).1.Append M2).1.Run).2.1 =
        dispatch (q0.handlers T ++ [H1, H2]) M2 ∧
      ((((q.Append M).1.Run).1.Append M2).1.Run).2.2 = .waiting := by
  intro q hq
  have f1 := registerAll_frame between (q0.Register T H1) T hb
  have f2 := registerAll_frame later
    (((q0.Register T H1).RegisterAll between).Register T H2) T hl
  have hh : q.handlers T = q0.handlers T ++ [H1, H2] := by
    rw [hq, f2.1, handlers_register_same, f1.1, handlers_register_same]
    simp
  have hp : q.pending = q0.pending := by
    rw [hq, f2.2.1]
    show ((q0.Register T H1).RegisterAll between).pending = _
    rw [f1.2.1]; rfl
  have hc : q.capacity = q0.capacity := by
    rw [hq, f2.2.2.1]
    show ((q0.Register T H1).RegisterAll between).capacity = _
    rw [f1.2.2.1]; rfl
  have ho : q.closed = false := by
    rw [hq, f2.2.2.2]
    show ((q0.Register T H1).RegisterAll between).closed = _
    rw [f1.2.2.2]; exact hopen
  have hroomq : q.pending.length < q.capacity := by rw [hp, hc]; exact hroom
  have r1 := run_after_append q M hroomq ho
  have hroom2 : ({ q with pending := [] } : NamedQueue).pending.length
      < ({ q with pending := [] } : NamedQueue).capacity := by
    show 0 < q.capacity
    exact Nat.lt_of_le_of_lt (Nat.zero_le _) hroomq
  have r2 := run_after_append { q with pending := [] } M2 hroom2 ho
  have hev : ((q.Append M).1.Run).2.1 =
      q.dispatchAll q0.pending ++ dispatch (q0.handlers T ++ [H1, H2]) M := by
    rw [r1.2.1, hM, hh, hp]
  refine ⟨hh, r1.1, hev, ?_, ?_, r1.2.2.1, ?_, ?_⟩
  · rw [dispatch_filter_invoked]; simp
  · intro err herr
    rw [hev]
    exact List.mem_append_right _ (dispatch_reports_error (q0.handlers T) [H2] H1 M err herr)
  · rw [r1.2.2.2, r2.2.1, hM2]
    have : ({ q with pending := [] } : NamedQueue).handlers T = q.handlers T := rfl
    rw [this, hh]
    rfl
  · rw [r1.2.2.2]; exact r2.2.2.1

/-- Claim C9, at a concrete input: on a queue in use, a first handler that
always fails and a second that succeeds are registered on `login-log` among
registrations on other topics; the pending message is dispatched first, then
both handlers are invoked in order on the new message, the failure of the
first is reported, and the loop keeps waiting. -/
theorem queue_dispatch_order_and_isolation_witness :
    sampleRegistered.handlers "login-log" = [sampleFailing, sampleRecording] ∧
    ((sampleRegistered.Append sampleMessage).1.Run).2.1 =
      [.invoked "H2" sampleEarlier, .invoked "H1" sampleEarlier,
       .handlerError "H1" sampleEarlier "boom",
       .invoked "H1" sampleMessage, .handlerError "H1" sampleMessage "boom",
       .invoked "H2" sampleMessage] ∧
    ((sampleRegistered.Append sampleMessage).1.Run).2.2 = .waiting :=
  have h := queue_dispatch_order_and_isolation sampleQueue "login-log" sampleFailing
    sampleRecording [("api-check", sampleRecording)] [("operate-log", sampleFailing)]
    sampleMessage sampleMessage rfl (by decide)
    (fun r hr => by rw [List.mem_singleton] at hr; subst hr; decide)
    (fun r hr => by rw [List.mem_singleton] at hr; subst hr; decide)
    rfl rfl sampleRegistered rfl
  ⟨h.1, h.2.2.1.trans (by decide), h.2.2.2.2.2.1⟩

end GoAdmin
